import Mathlib

/-!
Verification of the Asana task loader (src/langchain/document_loaders/asana.py)
against its natural-language specification.

The Python code is shallowly embedded: raw JSON-like values from the Asana API
are modelled by an inductive type of values, the relevant dictionary and
sequence operations of Python are given explicit semantics (including the
exceptions they raise), and each line of the loader is translated into a
function over those values.  Fallible Python code becomes Except-valued.
-/

set_option autoImplicit false

/-- A JSON-like Python value, as handled by the loader: None, booleans,
strings, lists and dictionaries (modelled as association lists in insertion
order, as Python dictionaries preserve insertion order). -/
inductive JVal where
  | null
  | bool (b : Bool)
  | str (s : String)
  | arr (xs : List JVal)
  | obj (kvs : List (String × JVal))

/-- The Python exceptions that the embedded code can raise. -/
inductive PyErr where
  | keyError (k : String)
  | typeError (msg : String)
  | attributeError (msg : String)
  | valueError (msg : String)
  | indexError (msg : String)

/-- Python truthiness of a value: None is falsy, empty strings, lists and
dictionaries are falsy, everything else here is truthy. -/
def truthy : JVal → Bool
  | .null => false
  | .bool b => b
  | .str s => s != ""
  | .arr xs => !xs.isEmpty
  | .obj kvs => !kvs.isEmpty

mutual

/-- Python repr of a value (used by str() on non-string values). -/
def pyRepr : JVal → String
  | .null => "None"
  | .bool true => "True"
  | .bool false => "False"
  | .str s => "\x27" ++ s ++ "\x27"
  | .arr xs => "[" ++ pyReprItems xs ++ "]"
  | .obj kvs => "\x7b" ++ pyReprFields kvs ++ "\x7d"

/-- Comma-separated reprs of the items of a list. -/
def pyReprItems : List JVal → String
  | [] => ""
  | [x] => pyRepr x
  | x :: y :: rest => pyRepr x ++ ", " ++ pyReprItems (y :: rest)

/-- Comma-separated reprs of the key-value pairs of a dictionary. -/
def pyReprFields : List (String × JVal) → String
  | [] => ""
  | [kv] => "\x27" ++ kv.1 ++ "\x27: " ++ pyRepr kv.2
  | kv :: kv2 :: rest =>
    "\x27" ++ kv.1 ++ "\x27: " ++ pyRepr kv.2 ++ ", " ++ pyReprFields (kv2 :: rest)

end

/-- Python str() of a value, as used by an f-string interpolation: a string is
itself, anything else is its repr (with None, True, False spelled as usual). -/
def pyStr : JVal → String
  | .str s => s
  | v => pyRepr v

/-- Python d.get(k, default): returns the stored value when the key is present
(even when that value is None), the default otherwise; raises AttributeError
when the receiver is not a dictionary. -/
def pyGet (v : JVal) (k : String) (d : JVal) : Except PyErr JVal :=
  match v with
  | .obj kvs => .ok ((List.lookup k kvs).getD d)
  | _ => .error (.attributeError ("object has no attribute get (" ++ k ++ ")"))

/-- Python d[k] for a string key: the stored value, or KeyError when absent;
TypeError when the receiver is not a dictionary. -/
def pyGetItem (v : JVal) (k : String) : Except PyErr JVal :=
  match v with
  | .obj kvs =>
    match List.lookup k kvs with
    | some x => .ok x
    | none => .error (.keyError k)
  | .arr _ => .error (.typeError "list indices must be integers or slices, not str")
  | .str _ => .error (.typeError "string indices must be integers")
  | _ => .error (.typeError "object is not subscriptable")

/-- Python xs[0]: first element of a list (IndexError when empty), first
character of a string, KeyError for a dictionary (0 is looked up as a key),
TypeError otherwise. -/
def pyIndexZero (v : JVal) : Except PyErr JVal :=
  match v with
  | .arr [] => .error (.indexError "list index out of range")
  | .arr (x :: _) => .ok x
  | .str s =>
    match s.data with
    | [] => .error (.indexError "string index out of range")
    | c :: _ => .ok (.str (String.singleton c))
  | .obj _ => .error (.keyError "0")
  | _ => .error (.typeError "object is not subscriptable")

/-- Python iteration over a value: a list yields its elements, a string its
characters, a dictionary its keys; None and booleans are not iterable. -/
def pyIter (v : JVal) : Except PyErr (List JVal) :=
  match v with
  | .arr xs => .ok xs
  | .str s => .ok (s.data.map (fun c => .str (String.singleton c)))
  | .obj kvs => .ok (kvs.map (fun kv => .str kv.1))
  | .null => .error (.typeError "NoneType object is not iterable")
  | .bool _ => .error (.typeError "bool object is not iterable")

/-- Python membership test (k in v) for a string k: key membership for a
dictionary, element membership for a list, substring test for a string;
TypeError on None and booleans. -/
def pyContains (v : JVal) (k : String) : Except PyErr Bool :=
  match v with
  | .obj kvs => .ok (kvs.any (fun kv => kv.1 == k))
  | .arr xs =>
    .ok (xs.any (fun x => match x with | .str s => s == k | _ => false))
  | .str s => .ok (if k == "" then true else (s.splitOn k).length != 1)
  | .null => .error (.typeError "argument of type NoneType is not iterable")
  | .bool _ => .error (.typeError "argument of type bool is not iterable")

/-- Modelled from the spec: the Document record of langchain (outside src/) is
an output record with a content string and an ordered metadata mapping. -/
structure Document where
  page_content : String
  metadata : List (String × JVal)

/-- Line 83 of asana.py: the assignee metadata value. -/
def assignee_field (task : JVal) : Except PyErr JVal :=
  Except.bind (pyGet task "assignee" .null) (fun c =>
    if truthy c then
      Except.bind (pyGet task "assignee" (.obj [])) (fun a =>
        pyGet a "name" (.str "Unassigned"))
    else .ok (.str "Unassigned"))

/-- The per-element body of the custom-fields comprehension on line 86 of
asana.py: for each element, the condition re-evaluates task.get and tests it
against None, then the element is subscripted at display_value. -/
def compCF (task : JVal) : List JVal → Except PyErr (List JVal)
  | [] => .ok []
  | i :: rest =>
    Except.bind (pyGet task "custom_fields" .null) (fun c =>
      match c with
      | .null => compCF task rest
      | _ =>
        Except.bind (pyGetItem i "display_value") (fun v =>
          Except.bind (compCF task rest) (fun vs => .ok (v :: vs))))

/-- Line 86 of asana.py: the custom_fields metadata value.  The iterable
task.get("custom_fields") is evaluated once and iterated. -/
def custom_fields_field (task : JVal) : Except PyErr JVal :=
  Except.bind (pyGet task "custom_fields" .null) (fun cf =>
    Except.bind (pyIter cf) (fun elems =>
      Except.bind (compCF task elems) (fun vs => .ok (.arr vs))))

/-- Line 87 of asana.py: the completed_by metadata value. -/
def completed_by_field (task : JVal) : Except PyErr JVal :=
  Except.bind (pyGet task "completed_by" .null) (fun c =>
    if truthy c then
      Except.bind (pyGet task "completed_by" (.obj [])) (fun a =>
        pyGet a "name" (.str "Unknown"))
    else .ok (.str "Unknown"))

/-- Line 88 of asana.py: the project_name metadata value. -/
def project_name_field (task : JVal) : Except PyErr JVal :=
  Except.bind (pyGet task "memberships" .null) (fun c =>
    if truthy c then
      Except.bind (pyGet task "memberships" (.arr [.obj []])) (fun m =>
        Except.bind (pyIndexZero m) (fun first =>
          Except.bind (pyGet first "project" (.obj [])) (fun p =>
            pyGet p "name" (.str "Unknown"))))
    else .ok (.str "Unknown"))

/-- Line 89 of asana.py: the workspace_name metadata value. -/
def workspace_name_field (task : JVal) : Except PyErr JVal :=
  Except.bind (pyGet task "workspace" .null) (fun c =>
    if truthy c then
      Except.bind (pyGet task "workspace" (.obj [])) (fun a =>
        pyGet a "name" (.str "Unknown"))
    else .ok (.str "Unknown"))

/-- The per-element body of the followers comprehension on line 93 of
asana.py: the (name in i) test first, then i.get(name). -/
def compFollowers : List JVal → Except PyErr (List JVal)
  | [] => .ok []
  | i :: rest =>
    Except.bind (pyContains i "name") (fun b =>
      if b then
        Except.bind (pyGet i "name" .null) (fun v =>
          Except.bind (compFollowers rest) (fun vs => .ok (v :: vs)))
      else compFollowers rest)

/-- Lines 92-95 of asana.py: the followers metadata value. -/
def followers_field (task : JVal) : Except PyErr JVal :=
  Except.bind (pyGet task "followers" .null) (fun f =>
    match f with
    | .null => .ok (.arr [])
    | _ =>
      Except.bind (pyGet task "followers" .null) (fun f2 =>
        Except.bind (pyIter f2) (fun elems =>
          Except.bind (compFollowers elems) (fun vs => .ok (.arr vs)))))

/-- Lines 77-97 of asana.py, AsanaLoader._task_to_doc: maps one raw task to a
Document, evaluating the fields in Python evaluation order (the f-string on
line 78 first, then the dictionary literal values in order, then followers).
The value of task[name] is computed once and reused for both of its two pure
occurrences (lines 78 and 81). -/
def task_to_doc (task : JVal) : Except PyErr Document :=
  Except.bind (pyGetItem task "name") (fun namev =>
  Except.bind (pyGet task "notes" (.str "")) (fun notesv =>
  Except.bind (pyGet task "gid" (.str "unknown")) (fun idv =>
  Except.bind (assignee_field task) (fun asgv =>
  Except.bind (pyGet task "due_on" (.str "No due date")) (fun duev =>
  Except.bind (pyGet task "completed_at" (.str "Not completed")) (fun cav =>
  Except.bind (custom_fields_field task) (fun cfv =>
  Except.bind (completed_by_field task) (fun cbv =>
  Except.bind (project_name_field task) (fun pnv =>
  Except.bind (workspace_name_field task) (fun wnv =>
  Except.bind (followers_field task) (fun flv =>
  Except.ok ⟨pyStr namev ++ "\n" ++ pyStr notesv,
    [("title", namev), ("id", idv), ("assignee", asgv), ("due_date", duev),
     ("completed_at", cav), ("custom_fields", cfv), ("completed_by", cbv),
     ("project_name", pnv), ("workspace_name", wnv),
     ("followers", flv)]⟩)))))))))))

/-- The Asana client object handed to the loader: its three listing
operations, each a pure function from the request to the returned records
(the client performs its own pagination and is treated as an opaque
sequence-producing call). -/
structure Client where
  projects_find_all : JVal → List JVal
  projects_find_by_id : String → JVal
  tasks_find_all : JVal → List JVal

/-- One API call issued by the loader through the client. -/
inductive ApiCall where
  | projectsFindAll (filter : JVal)
  | projectsFindById (id : String)
  | tasksFindAll (filter : JVal)

/-- The loader state after construction: the stored client, id and id_type
(lines 26-28 of asana.py). -/
structure AsanaLoader where
  client : Client
  id : String
  id_type : String

/-- The error message raised on line 24 of asana.py. -/
def init_err_msg : String :=
  "id_type must be either \x27project\x27 or \x27workspace\x27"

/-- Lines 15-28 of asana.py, AsanaLoader.__init__: validates id_type against
the list of recognized values and stores the three arguments.  The first
component is the list of API calls issued during construction (none: __init__
never touches the client). -/
def AsanaLoader.init (client : Client) (id : String) (id_type : String) :
    List ApiCall × Except PyErr AsanaLoader :=
  ([],
   if id_type ∉ ["project", "workspace"] then
     .error (.valueError init_err_msg)
   else
     .ok ⟨client, id, id_type⟩)

/-- The opt_fields request string of line 71 of asana.py. -/
def opt_fields_value : String :=
  "name,notes,completed,completed_at,completed_by,assignee,followers,custom_fields"

/-- The project-listing filter of line 59 of asana.py. -/
def wsFilter (workspace_id : String) : JVal :=
  .obj [("workspace", .str workspace_id)]

/-- The task-listing filter of lines 69-72 of asana.py. -/
def taskFilter (gid : JVal) : JVal :=
  .obj [("project", gid), ("opt_fields", .str opt_fields_value)]

/-- Lines 66-73 of asana.py: for each project record, read its gid (a
subscript that can raise KeyError or TypeError), issue one task-listing call,
and accumulate the yielded tasks in order.  Returns the list of task-listing
calls actually issued together with the concatenated tasks or the first
raised error. -/
def loadTasksLoop (c : Client) : List JVal → List ApiCall × Except PyErr (List JVal)
  | [] => ([], .ok [])
  | p :: rest =>
    match pyGetItem p "gid" with
    | .error e => ([], .error e)
    | .ok gid =>
      let ts := c.tasks_find_all (taskFilter gid)
      let r := loadTasksLoop c rest
      (ApiCall.tasksFindAll (taskFilter gid) :: r.1,
       match r.2 with
       | .ok more => .ok (ts ++ more)
       | .error e => .error e)

/-- Line 75 of asana.py: map every retrieved task to a Document, stopping at
the first raised error. -/
def mapTasks : List JVal → Except PyErr (List Document)
  | [] => .ok []
  | t :: ts =>
    Except.bind (task_to_doc t) (fun d =>
      Except.bind (mapTasks ts) (fun ds => .ok (d :: ds)))

/-- Lines 51-75 of asana.py, AsanaLoader.load: resolve the stored id to a
list of project records (one listing call for a workspace, one lookup call
for a project), then fetch and map the tasks of each project.  The first
component is the ordered list of API calls issued. -/
def AsanaLoader.load (l : AsanaLoader) : List ApiCall × Except PyErr (List Document) :=
  if l.id_type = "workspace" then
    let projects := l.client.projects_find_all (wsFilter l.id)
    let r := loadTasksLoop l.client projects
    (ApiCall.projectsFindAll (wsFilter l.id) :: r.1,
     Except.bind r.2 mapTasks)
  else if l.id_type = "project" then
    let p := l.client.projects_find_by_id l.id
    let r := loadTasksLoop l.client [p]
    (ApiCall.projectsFindById l.id :: r.1,
     Except.bind r.2 mapTasks)
  else
    ([], .error (.valueError "id_type must be either \x27workspace\x27 or \x27project\x27"))

/-- Modelled from the spec: langchain.utils.get_from_env (not under src/)
reads the named environment variable and fails with a configuration error
when neither source provides a value.  The environment is passed in as a
lookup function. -/
def get_from_env (env : String → Option String) (key : String) (env_key : String) :
    Except PyErr String :=
  match env env_key with
  | some v => .ok v
  | none =>
    .error (.valueError ("Did not find " ++ key ++
      ", please add an environment variable " ++ env_key))

/-- Lines 30-49 of asana.py, AsanaLoader.from_credentials: the token is the
supplied access_token when truthy (Python or), otherwise it is read from the
ASANA_ACCESS_TOKEN environment variable; a client bound to the token is built
(asana.Client.access_token, modelled by the supplied factory mkClient) and
construction is delegated to AsanaLoader.init. -/
def from_credentials (env : String → Option String) (mkClient : String → Client)
    (id : String) (id_type : String) (access_token : Option String) :
    Except PyErr AsanaLoader :=
  Except.bind
    (match access_token with
     | some t =>
       if t != "" then .ok t else get_from_env env "access_token" "ASANA_ACCESS_TOKEN"
     | none => get_from_env env "access_token" "ASANA_ACCESS_TOKEN")
    (fun tok => (AsanaLoader.init (mkClient tok) id id_type).2)

/-! Sample data used by witnesses: a minimal task that maps successfully, and
the document it produces. -/

/-- A minimal raw task that the mapping accepts: only the required name plus
an (empty) custom_fields array. -/
def task1 : JVal := .obj [("name", .str "t"), ("custom_fields", .arr [])]

/-- The document produced for task1. -/
def doc1 : Document :=
  ⟨"t\n",
   [("title", .str "t"), ("id", .str "unknown"), ("assignee", .str "Unassigned"),
    ("due_date", .str "No due date"), ("completed_at", .str "Not completed"),
    ("custom_fields", .arr []), ("completed_by", .str "Unknown"),
    ("project_name", .str "Unknown"), ("workspace_name", .str "Unknown"),
    ("followers", .arr [])]⟩

/-- The mapping of task1 evaluates to doc1. -/
lemma task1_to_doc : task_to_doc task1 = .ok doc1 := rfl

/-- The worked example of the spec (section 8): a fully populated raw task. -/
def taskSpecExample : JVal :=
  .obj [("gid", .str "1"), ("name", .str "Fix bug"), ("notes", .str "details"),
        ("assignee", .obj [("name", .str "Alice")]),
        ("custom_fields", .arr [.obj [("display_value", .str "P1")]]),
        ("followers", .arr [.obj [("name", .str "Bob")], .obj [("name", .str "Carol")]])]

/-- The document the spec expects for its worked example. -/
def docSpecExample : Document :=
  ⟨"Fix bug\ndetails",
   [("title", .str "Fix bug"), ("id", .str "1"), ("assignee", .str "Alice"),
    ("due_date", .str "No due date"), ("completed_at", .str "Not completed"),
    ("custom_fields", .arr [.str "P1"]), ("completed_by", .str "Unknown"),
    ("project_name", .str "Unknown"), ("workspace_name", .str "Unknown"),
    ("followers", .arr [.str "Bob", .str "Carol"])]⟩

/-- The embedded mapping reproduces the worked example of the spec. -/
lemma taskSpecExample_to_doc : task_to_doc taskSpecExample = .ok docSpecExample := rfl

/-! Decomposition of a successful bind and of a successful mapping. -/

/-- A successful Except bind decomposes into a successful first step and a
successful continuation. -/
lemma except_bind_ok {α β : Type} {x : Except PyErr α} {f : α → Except PyErr β} {b : β}
    (h : Except.bind x f = .ok b) : ∃ a, x = .ok a ∧ f a = .ok b := by
  cases x with
  | error e => simp [Except.bind] at h
  | ok a => exact ⟨a, rfl, h⟩

/-- A successful run of the task-to-document mapping determines every field:
each per-field computation succeeded and the document is assembled from their
results in the dictionary-literal order of the source. -/
lemma task_to_doc_fields (task : JVal) (doc : Document)
    (h : task_to_doc task = .ok doc) :
    ∃ namev notesv idv asgv duev cav cfv cbv pnv wnv flv,
      pyGetItem task "name" = .ok namev ∧
      pyGet task "notes" (.str "") = .ok notesv ∧
      pyGet task "gid" (.str "unknown") = .ok idv ∧
      assignee_field task = .ok asgv ∧
      pyGet task "due_on" (.str "No due date") = .ok duev ∧
      pyGet task "completed_at" (.str "Not completed") = .ok cav ∧
      custom_fields_field task = .ok cfv ∧
      completed_by_field task = .ok cbv ∧
      project_name_field task = .ok pnv ∧
      workspace_name_field task = .ok wnv ∧
      followers_field task = .ok flv ∧
      doc = ⟨pyStr namev ++ "\n" ++ pyStr notesv,
        [("title", namev), ("id", idv), ("assignee", asgv), ("due_date", duev),
         ("completed_at", cav), ("custom_fields", cfv), ("completed_by", cbv),
         ("project_name", pnv), ("workspace_name", wnv), ("followers", flv)]⟩ := by
  unfold task_to_doc at h
  obtain ⟨namev, h1, h⟩ := except_bind_ok h
  obtain ⟨notesv, h2, h⟩ := except_bind_ok h
  obtain ⟨idv, h3, h⟩ := except_bind_ok h
  obtain ⟨asgv, h4, h⟩ := except_bind_ok h
  obtain ⟨duev, h5, h⟩ := except_bind_ok h
  obtain ⟨cav, h6, h⟩ := except_bind_ok h
  obtain ⟨cfv, h7, h⟩ := except_bind_ok h
  obtain ⟨cbv, h8, h⟩ := except_bind_ok h
  obtain ⟨pnv, h9, h⟩ := except_bind_ok h
  obtain ⟨wnv, h10, h⟩ := except_bind_ok h
  obtain ⟨flv, h11, h⟩ := except_bind_ok h
  refine ⟨namev, notesv, idv, asgv, duev, cav, cfv, cbv, pnv, wnv, flv,
    h1, h2, h3, h4, h5, h6, h7, h8, h9, h10, h11, ?_⟩
  cases h
  rfl

/-- Evaluation of get with a default on a dictionary. -/
lemma pyGet_obj (kvs : List (String × JVal)) (k : String) (d : JVal) :
    pyGet (.obj kvs) k d = .ok ((List.lookup k kvs).getD d) := rfl

/-- Evaluation of subscripting on a dictionary. -/
lemma pyGetItem_obj (kvs : List (String × JVal)) (k : String) :
    pyGetItem (.obj kvs) k =
      (match List.lookup k kvs with
       | some x => .ok x
       | none => .error (.keyError k)) := rfl

/-! Claims about the task-to-document mapping. -/

/-- C1: the claim says a raw task with only the required title key maps
successfully to the full set of default metadata.  The code instead raises:
the custom-fields comprehension on line 86 iterates task.get("custom_fields"),
which is None when the key is absent, and its guard (if task.get is not None)
filters elements only after iteration has already begun, so the mapping
aborts with a TypeError. -/
theorem C1_missing_custom_fields_raises :
    task_to_doc (.obj [("name", .str "Fix bug")]) =
      .error (.typeError "NoneType object is not iterable") := rfl

/-- C3: for every raw task whose name is a string and whose notes field, when
present, is a string, a successfully produced document has content equal to
the title, a newline, and the notes text (empty when the notes key is
absent). -/
theorem C3_content (kvs : List (String × JVal)) (title notesStr : String)
    (doc : Document)
    (hname : List.lookup "name" kvs = some (.str title))
    (hnotes : (List.lookup "notes" kvs).getD (.str "") = .str notesStr)
    (h : task_to_doc (.obj kvs) = .ok doc) :
    doc.page_content = title ++ "\n" ++ notesStr := by
  obtain ⟨namev, notesv, idv, asgv, duev, cav, cfv, cbv, pnv, wnv, flv,
    h1, h2, h3, h4, h5, h6, h7, h8, h9, h10, h11, hdoc⟩ := task_to_doc_fields _ _ h
  rw [pyGetItem_obj, hname] at h1
  rw [pyGet_obj, hnotes] at h2
  have e1 := Except.ok.inj h1
  have e2 := Except.ok.inj h2
  subst e1; subst e2; subst hdoc
  rfl

/-- C3 witness: the minimal sample task produces content "t" ++ newline. -/
theorem C3_content_witness : doc1.page_content = "t" ++ "\n" ++ "" :=
  C3_content [("name", .str "t"), ("custom_fields", .arr [])] "t" "" doc1
    rfl rfl task1_to_doc

/-- A raw task whose completed_at key is present but carries a null value. -/
def task6 : JVal :=
  .obj [("name", .str "t"), ("custom_fields", .arr []), ("completed_at", .null)]

/-- C6 counterexample: for a task whose completed_at field carries a null
value, the produced metadata value is null, not the literal string
"Not completed" as the claim states. -/
theorem C6_counterexample :
    (task_to_doc task6).map (fun d => List.lookup "completed_at" d.metadata) =
      .ok (some .null) ∧
    some JVal.null ≠ some (JVal.str "Not completed") :=
  ⟨rfl, fun hc => JVal.noConfusion (Option.some.inj hc)⟩

/-- C6 amended: metadata completed_at is the stored value of the completed_at
key whenever the key is present (a null value passes through as null), and
the literal "Not completed" exactly when the key is absent. -/
theorem C6_completed_at_amended (kvs : List (String × JVal)) (doc : Document)
    (h : task_to_doc (.obj kvs) = .ok doc) :
    List.lookup "completed_at" doc.metadata =
      some ((List.lookup "completed_at" kvs).getD (.str "Not completed")) := by
  obtain ⟨namev, notesv, idv, asgv, duev, cav, cfv, cbv, pnv, wnv, flv,
    h1, h2, h3, h4, h5, h6, h7, h8, h9, h10, h11, hdoc⟩ := task_to_doc_fields _ _ h
  rw [pyGet_obj] at h6
  have e6 := Except.ok.inj h6
  subst e6; subst hdoc
  rfl

/-- C6 witness: on the minimal sample task (completed_at absent) the amended
claim yields the default string. -/
theorem C6_completed_at_amended_witness :
    List.lookup "completed_at" doc1.metadata = some (JVal.str "Not completed") :=
  C6_completed_at_amended [("name", .str "t"), ("custom_fields", .arr [])] doc1
    task1_to_doc

/-- A raw task whose first membership entry has a project key carrying null:
line 88 then calls .get on None. -/
def task7 : JVal :=
  .obj [("name", .str "t"), ("custom_fields", .arr []),
        ("memberships", .arr [.obj [("project", .null)]])]

/-- C7 counterexample: the claim says the mapping never raises for the
project-name field, yielding "Unknown" whenever the first membership entry
has no (named) project; but a first entry whose project key carries null
makes line 88 call .get on None, aborting with an AttributeError. -/
theorem C7_counterexample :
    task_to_doc task7 =
      .error (.attributeError "object has no attribute get (name)") := rfl

/-- C7 amended: on a successfully produced document, metadata project_name is
"Unknown" when memberships are absent or the memberships list is empty, when
the first membership entry (a dictionary) has no project key, or when the
referenced project dictionary has no name key; and it is the stored name
value when the project dictionary has one.  (A first entry whose project key
carries null instead raises, per the counterexample.) -/
theorem C7_project_name_amended (kvs : List (String × JVal)) (doc : Document)
    (h : task_to_doc (.obj kvs) = .ok doc) :
    (List.lookup "memberships" kvs = none →
      List.lookup "project_name" doc.metadata = some (.str "Unknown")) ∧
    (List.lookup "memberships" kvs = some (.arr []) →
      List.lookup "project_name" doc.metadata = some (.str "Unknown")) ∧
    (∀ m rest, List.lookup "memberships" kvs = some (.arr (.obj m :: rest)) →
      (List.lookup "project" m = none →
        List.lookup "project_name" doc.metadata = some (.str "Unknown")) ∧
      (∀ ps, List.lookup "project" m = some (.obj ps) →
        (List.lookup "name" ps = none →
          List.lookup "project_name" doc.metadata = some (.str "Unknown")) ∧
        (∀ v, List.lookup "name" ps = some v →
          List.lookup "project_name" doc.metadata = some v))) := by
  obtain ⟨namev, notesv, idv, asgv, duev, cav, cfv, cbv, pnv, wnv, flv,
    h1, h2, h3, h4, h5, h6, h7, h8, h9, h10, h11, hdoc⟩ := task_to_doc_fields _ _ h
  have hmeta : List.lookup "project_name" doc.metadata = some pnv := by
    subst hdoc; rfl
  refine ⟨?_, ?_, ?_⟩
  · intro hmem
    rw [hmeta]
    unfold project_name_field at h9
    rw [pyGet_obj, hmem] at h9
    simp only [Option.getD_none, Except.bind, truthy, if_neg] at h9
    rw [← Except.ok.inj h9]
  · intro hmem
    rw [hmeta]
    unfold project_name_field at h9
    rw [pyGet_obj, hmem] at h9
    simp only [Option.getD_some, Except.bind, truthy, List.isEmpty,
      Bool.not_true, if_neg] at h9
    rw [← Except.ok.inj h9]
  · intro m rest hmem
    unfold project_name_field at h9
    rw [pyGet_obj, hmem] at h9
    simp only [Option.getD_some, Except.bind, truthy, List.isEmpty,
      Bool.not_false, if_pos, pyIndexZero] at h9
    rw [pyGet_obj, hmem] at h9
    simp only [Option.getD_some, Except.bind, pyIndexZero] at h9
    rw [pyGet_obj] at h9
    constructor
    · intro hproj
      rw [hmeta]
      rw [hproj] at h9
      simp only [Option.getD_none, Except.bind, pyGet_obj,
        List.lookup, Option.getD_none] at h9
      rw [← Except.ok.inj h9]
    · intro ps hproj
      rw [hproj] at h9
      simp only [Option.getD_some, Except.bind] at h9
      rw [pyGet_obj] at h9
      constructor
      · intro hname
        rw [hmeta]
        rw [hname] at h9
        rw [← Except.ok.inj h9]
        rfl
      · intro v hname
        rw [hmeta]
        rw [hname] at h9
        rw [← Except.ok.inj h9]
        rfl

/-- C7 witness: the minimal sample task has no memberships key, and its
document carries project_name "Unknown". -/
theorem C7_project_name_amended_witness :
    List.lookup "project_name" doc1.metadata = some (JVal.str "Unknown") :=
  (C7_project_name_amended [("name", .str "t"), ("custom_fields", .arr [])] doc1
    task1_to_doc).1 rfl

/-- C5 counterexample: a custom-fields array whose single entry lacks a
display-value field makes the comprehension on line 86 raise a KeyError that
aborts the mapping, instead of substituting a local default as the claim
states. -/
theorem C5_counterexample :
    task_to_doc (.obj [("name", .str "t"), ("custom_fields", .arr [.obj []])]) =
      .error (.keyError "display_value") := rfl

/-- The custom-fields comprehension on elements that all carry a display
value: it keeps every element (the guard re-tests the non-null array) and
produces the display values in order. -/
lemma compCF_map (kvs : List (String × JVal)) (es0 : List JVal)
    (hcf : List.lookup "custom_fields" kvs = some (.arr es0)) (dv : JVal → JVal) :
    ∀ es : List JVal, (∀ i ∈ es, pyGetItem i "display_value" = .ok (dv i)) →
      compCF (.obj kvs) es = .ok (es.map dv) := by
  intro es
  induction es with
  | nil => intro _; rfl
  | cons i rest ih =>
    intro hall
    have hi := hall i (List.mem_cons_self i rest)
    have hrest := fun j hj => hall j (List.mem_cons_of_mem i hj)
    simp only [compCF, pyGet_obj, hcf, Option.getD_some, Except.bind, hi,
      ih hrest, List.map]

/-- C5 amended: when the custom-fields array is present and every entry
carries a display value, metadata custom_fields is the ordered sequence of
those display values, in the order the raw record lists them; an entry
lacking its display-value field instead aborts the mapping with a KeyError,
per the counterexample. -/
theorem C5_custom_fields_amended (kvs : List (String × JVal)) (es : List JVal)
    (dv : JVal → JVal) (doc : Document)
    (hcf : List.lookup "custom_fields" kvs = some (.arr es))
    (hdv : ∀ i ∈ es, pyGetItem i "display_value" = .ok (dv i))
    (h : task_to_doc (.obj kvs) = .ok doc) :
    List.lookup "custom_fields" doc.metadata = some (.arr (es.map dv)) := by
  obtain ⟨namev, notesv, idv, asgv, duev, cav, cfv, cbv, pnv, wnv, flv,
    h1, h2, h3, h4, h5, h6, h7, h8, h9, h10, h11, hdoc⟩ := task_to_doc_fields _ _ h
  have hmeta : List.lookup "custom_fields" doc.metadata = some cfv := by
    subst hdoc; rfl
  rw [hmeta]
  unfold custom_fields_field at h7
  rw [pyGet_obj, hcf] at h7
  simp only [Option.getD_some, Except.bind, pyIter,
    compCF_map kvs es hcf dv es hdv] at h7
  rw [← Except.ok.inj h7]

/-- C5 witness: the worked example of the spec, whose single custom field has
display value "P1". -/
theorem C5_custom_fields_amended_witness :
    List.lookup "custom_fields" docSpecExample.metadata =
      some (JVal.arr [JVal.str "P1"]) := by
  have := C5_custom_fields_amended
    [("gid", .str "1"), ("name", .str "Fix bug"), ("notes", .str "details"),
     ("assignee", .obj [("name", .str "Alice")]),
     ("custom_fields", .arr [.obj [("display_value", .str "P1")]]),
     ("followers", .arr [.obj [("name", .str "Bob")], .obj [("name", .str "Carol")]])]
    [.obj [("display_value", .str "P1")]] (fun _ => .str "P1") docSpecExample
    rfl (by intro i hi; rw [List.mem_singleton] at hi; subst hi; rfl)
    taskSpecExample_to_doc
  simpa using this

/-! Claims about load(): call traces and document counts. -/

/-- When every resolved project record carries a gid, the task loop issues
exactly one task-listing call per project, in order, and yields the
concatenation of the per-project task sequences. -/
lemma loadTasksLoop_spec (c : Client) (g : JVal → JVal) :
    ∀ ps : List JVal, (∀ p ∈ ps, pyGetItem p "gid" = .ok (g p)) →
      loadTasksLoop c ps =
        (ps.map (fun p => ApiCall.tasksFindAll (taskFilter (g p))),
         .ok (List.flatten (ps.map (fun p => c.tasks_find_all (taskFilter (g p)))))) := by
  intro ps
  induction ps with
  | nil => intro _; rfl
  | cons p rest ih =>
    intro hall
    have hp := hall p (List.mem_cons_self p rest)
    have hrest := fun q hq => hall q (List.mem_cons_of_mem p hq)
    simp only [loadTasksLoop, hp, ih hrest, List.map, List.flatten_cons]

/-- When every retrieved task maps successfully, line 75 produces one
document per task, in order. -/
lemma mapTasks_spec (docOf : JVal → Document) :
    ∀ ts : List JVal, (∀ t ∈ ts, task_to_doc t = .ok (docOf t)) →
      mapTasks ts = .ok (ts.map docOf) := by
  intro ts
  induction ts with
  | nil => intro _; rfl
  | cons t rest ih =>
    intro hall
    have ht := hall t (List.mem_cons_self t rest)
    have hrest := fun u hu => hall u (List.mem_cons_of_mem t hu)
    simp only [mapTasks, ht, ih hrest, Except.bind, List.map]

/-- C2: with idKind workspace, load() issues exactly one project-listing call
followed by one task-listing call per returned project in the order the
projects were returned; it returns one document per retrieved task, the
documents being the concatenation of the per-project task sequences in yield
order, so the document count is the sum of the per-project task counts.  The
hypotheses say each returned project record carries a gid and each retrieved
task maps successfully. -/
theorem C2_workspace_load (c : Client) (wid : String) (g : JVal → JVal)
    (docOf : JVal → Document)
    (hg : ∀ p ∈ c.projects_find_all (wsFilter wid), pyGetItem p "gid" = .ok (g p))
    (hd : ∀ p ∈ c.projects_find_all (wsFilter wid),
          ∀ t ∈ c.tasks_find_all (taskFilter (g p)), task_to_doc t = .ok (docOf t)) :
    (AsanaLoader.load ⟨c, wid, "workspace"⟩).1 =
      ApiCall.projectsFindAll (wsFilter wid) ::
        (c.projects_find_all (wsFilter wid)).map
          (fun p => ApiCall.tasksFindAll (taskFilter (g p))) ∧
    (AsanaLoader.load ⟨c, wid, "workspace"⟩).2 =
      .ok ((List.flatten ((c.projects_find_all (wsFilter wid)).map
              (fun p => c.tasks_find_all (taskFilter (g p))))).map docOf) ∧
    ((List.flatten ((c.projects_find_all (wsFilter wid)).map
        (fun p => c.tasks_find_all (taskFilter (g p))))).map docOf).length =
      ((c.projects_find_all (wsFilter wid)).map
        (fun p => (c.tasks_find_all (taskFilter (g p))).length)).sum := by
  have hloop := loadTasksLoop_spec c g (c.projects_find_all (wsFilter wid)) hg
  have hmap : mapTasks (List.flatten ((c.projects_find_all (wsFilter wid)).map
      (fun p => c.tasks_find_all (taskFilter (g p))))) =
      .ok ((List.flatten ((c.projects_find_all (wsFilter wid)).map
        (fun p => c.tasks_find_all (taskFilter (g p))))).map docOf) := by
    apply mapTasks_spec
    intro t ht
    rw [List.mem_flatten] at ht
    obtain ⟨l, hl, htl⟩ := ht
    rw [List.mem_map] at hl
    obtain ⟨p, hp, rfl⟩ := hl
    exact hd p hp t htl
  refine ⟨?_, ?_, ?_⟩
  · simp only [AsanaLoader.load, if_pos, hloop]
  · simp only [AsanaLoader.load, if_pos, hloop, Except.bind, hmap]
  · rw [List.length_map, List.length_flatten]
    simp only [List.map_map]
    rfl

/-- A sample client for witnesses: one workspace project with gid p1, task
listing always returns the single sample task, project lookup echoes a
record with the requested gid. -/
def cW : Client :=
  ⟨fun _ => [.obj [("gid", .str "p1")]],
   fun pid => .obj [("gid", .str pid)],
   fun _ => [task1]⟩

/-- C2 witness: the sample client under a workspace load issues the
project-listing call then the one task-listing call and returns the one
document. -/
theorem C2_workspace_load_witness :
    (AsanaLoader.load ⟨cW, "w1", "workspace"⟩).1 =
      [ApiCall.projectsFindAll (wsFilter "w1"),
       ApiCall.tasksFindAll (taskFilter (.str "p1"))] ∧
    (AsanaLoader.load ⟨cW, "w1", "workspace"⟩).2 = .ok [doc1] := by
  have := C2_workspace_load cW "w1" (fun _ => .str "p1") (fun _ => doc1)
    (by intro p hp; rw [show cW.projects_find_all (wsFilter "w1") =
          [.obj [("gid", .str "p1")]] from rfl, List.mem_singleton] at hp
        subst hp; rfl)
    (by intro p hp t ht
        rw [show cW.tasks_find_all (taskFilter ((fun _ => JVal.str "p1") p)) =
          [task1] from rfl, List.mem_singleton] at ht
        subst ht; exact task1_to_doc)
  exact ⟨this.1, this.2.1⟩

/-- C8: with idKind project, load() issues exactly one project lookup call
followed by exactly one task-listing call, independent of any workspace; the
hypothesis says the looked-up project record carries a gid. -/
theorem C8_project_load (c : Client) (pid : String) (g : JVal)
    (hg : pyGetItem (c.projects_find_by_id pid) "gid" = .ok g) :
    (AsanaLoader.load ⟨c, pid, "project"⟩).1 =
      [ApiCall.projectsFindById pid, ApiCall.tasksFindAll (taskFilter g)] := by
  simp only [AsanaLoader.load, loadTasksLoop, hg]
  rfl

/-- C8 witness: the sample client under a project load issues exactly the
lookup call and one task-listing call. -/
theorem C8_project_load_witness :
    (AsanaLoader.load ⟨cW, "p9", "project"⟩).1 =
      [ApiCall.projectsFindById "p9", ApiCall.tasksFindAll (taskFilter (.str "p9"))] :=
  C8_project_load cW "p9" (.str "p9") rfl

/-! C10: the defensive invalid-id_type branch of load() is unreachable after
a successful construction.  We show no other part of load() can raise a
ValueError at all. -/

/-- Whether an exception is a ValueError. -/
def PyErr.isVal : PyErr → Bool
  | .valueError _ => true
  | _ => false

/-- A computation that never fails with a ValueError. -/
def noVE {α : Type} (x : Except PyErr α) : Prop :=
  ∀ e : PyErr, x = .error e → e.isVal = false

/-- A successful result raises nothing. -/
lemma noVE_ok {α : Type} (a : α) : noVE (Except.ok a) :=
  fun _ he => Except.noConfusion he

/-- An error that is not a ValueError. -/
lemma noVE_error {α : Type} {e0 : PyErr} (h : e0.isVal = false) :
    noVE (Except.error e0 : Except PyErr α) :=
  fun _ he => (Except.error.inj he) ▸ h

/-- Sequencing preserves freedom from ValueError. -/
lemma noVE_bind {α β : Type} {x : Except PyErr α} {f : α → Except PyErr β}
    (hx : noVE x) (hf : ∀ a, noVE (f a)) : noVE (Except.bind x f) := by
  cases x with
  | error e0 =>
    intro e he
    dsimp only [Except.bind] at he
    cases Except.error.inj he
    exact hx e0 rfl
  | ok a =>
    intro e he
    dsimp only [Except.bind] at he
    exact hf a e he

/-- get never raises a ValueError. -/
lemma noVE_pyGet (v : JVal) (k : String) (d : JVal) : noVE (pyGet v k d) := by
  cases v <;> first | exact noVE_ok _ | exact noVE_error rfl

/-- Subscripting never raises a ValueError. -/
lemma noVE_pyGetItem (v : JVal) (k : String) : noVE (pyGetItem v k) := by
  intro e he
  cases v <;> dsimp only [pyGetItem] at he
  case obj kvs =>
    split at he
    · exact Except.noConfusion he
    · cases Except.error.inj he; rfl
  all_goals (cases Except.error.inj he; rfl)

/-- Indexing never raises a ValueError. -/
lemma noVE_pyIndexZero (v : JVal) : noVE (pyIndexZero v) := by
  intro e he
  unfold pyIndexZero at he
  split at he <;> try split at he
  all_goals
    first
      | exact Except.noConfusion he
      | (cases Except.error.inj he; rfl)

/-- Iteration never raises a ValueError. -/
lemma noVE_pyIter (v : JVal) : noVE (pyIter v) := by
  cases v <;> first | exact noVE_ok _ | exact noVE_error rfl

/-- Membership tests never raise a ValueError. -/
lemma noVE_pyContains (v : JVal) (k : String) : noVE (pyContains v k) := by
  cases v <;> first | exact noVE_ok _ | exact noVE_error rfl

/-- The assignee field never raises a ValueError. -/
lemma noVE_assignee (task : JVal) : noVE (assignee_field task) := by
  unfold assignee_field
  refine noVE_bind (noVE_pyGet _ _ _) (fun c => ?_)
  cases truthy c
  · simpa using noVE_ok (JVal.str "Unassigned")
  · simpa using noVE_bind (noVE_pyGet _ _ _) (fun a => noVE_pyGet _ _ _)

/-- The custom-fields comprehension never raises a ValueError. -/
lemma noVE_compCF (task : JVal) : ∀ es : List JVal, noVE (compCF task es) := by
  intro es
  induction es with
  | nil => exact noVE_ok _
  | cons i rest ih =>
    refine noVE_bind (noVE_pyGet _ _ _) (fun c => ?_)
    cases c <;>
      first
        | exact ih
        | exact noVE_bind (noVE_pyGetItem _ _)
            (fun v => noVE_bind ih (fun vs => noVE_ok _))

/-- The custom-fields field never raises a ValueError. -/
lemma noVE_custom_fields (task : JVal) : noVE (custom_fields_field task) := by
  unfold custom_fields_field
  exact noVE_bind (noVE_pyGet _ _ _) (fun cf =>
    noVE_bind (noVE_pyIter _) (fun elems =>
      noVE_bind (noVE_compCF _ _) (fun vs => noVE_ok _)))

/-- The completed-by field never raises a ValueError. -/
lemma noVE_completed_by (task : JVal) : noVE (completed_by_field task) := by
  unfold completed_by_field
  refine noVE_bind (noVE_pyGet _ _ _) (fun c => ?_)
  cases truthy c
  · simpa using noVE_ok (JVal.str "Unknown")
  · simpa using noVE_bind (noVE_pyGet _ _ _) (fun a => noVE_pyGet _ _ _)

/-- The project-name field never raises a ValueError. -/
lemma noVE_project_name (task : JVal) : noVE (project_name_field task) := by
  unfold project_name_field
  refine noVE_bind (noVE_pyGet _ _ _) (fun c => ?_)
  cases truthy c
  · simpa using noVE_ok (JVal.str "Unknown")
  · simpa using noVE_bind (noVE_pyGet _ _ _) (fun m =>
      noVE_bind (noVE_pyIndexZero _) (fun first =>
        noVE_bind (noVE_pyGet _ _ _) (fun p => noVE_pyGet _ _ _)))

/-- The workspace-name field never raises a ValueError. -/
lemma noVE_workspace_name (task : JVal) : noVE (workspace_name_field task) := by
  unfold workspace_name_field
  refine noVE_bind (noVE_pyGet _ _ _) (fun c => ?_)
  cases truthy c
  · simpa using noVE_ok (JVal.str "Unknown")
  · simpa using noVE_bind (noVE_pyGet _ _ _) (fun a => noVE_pyGet _ _ _)

/-- The followers comprehension never raises a ValueError. -/
lemma noVE_compFollowers : ∀ es : List JVal, noVE (compFollowers es) := by
  intro es
  induction es with
  | nil => exact noVE_ok _
  | cons i rest ih =>
    refine noVE_bind (noVE_pyContains _ _) (fun b => ?_)
    cases b
    · simpa using ih
    · simpa using noVE_bind (noVE_pyGet _ _ _)
        (fun v => noVE_bind ih (fun vs => noVE_ok _))

/-- The followers field never raises a ValueError. -/
lemma noVE_followers (task : JVal) : noVE (followers_field task) := by
  unfold followers_field
  refine noVE_bind (noVE_pyGet _ _ _) (fun f => ?_)
  cases f <;>
    first
      | exact noVE_ok _
      | exact noVE_bind (noVE_pyGet _ _ _) (fun f2 =>
          noVE_bind (noVE_pyIter _) (fun elems =>
            noVE_bind (noVE_compFollowers _) (fun vs => noVE_ok _)))

/-- The task-to-document mapping never raises a ValueError. -/
lemma noVE_task_to_doc (task : JVal) : noVE (task_to_doc task) := by
  unfold task_to_doc
  exact noVE_bind (noVE_pyGetItem _ _) (fun namev =>
    noVE_bind (noVE_pyGet _ _ _) (fun notesv =>
      noVE_bind (noVE_pyGet _ _ _) (fun idv =>
        noVE_bind (noVE_assignee _) (fun asgv =>
          noVE_bind (noVE_pyGet _ _ _) (fun duev =>
            noVE_bind (noVE_pyGet _ _ _) (fun cav =>
              noVE_bind (noVE_custom_fields _) (fun cfv =>
                noVE_bind (noVE_completed_by _) (fun cbv =>
                  noVE_bind (noVE_project_name _) (fun pnv =>
                    noVE_bind (noVE_workspace_name _) (fun wnv =>
                      noVE_bind (noVE_followers _) (fun flv => noVE_ok _)))))))))))

/-- The document mapping of line 75 never raises a ValueError. -/
lemma noVE_mapTasks : ∀ ts : List JVal, noVE (mapTasks ts) := by
  intro ts
  induction ts with
  | nil => exact noVE_ok _
  | cons t rest ih =>
    exact noVE_bind (noVE_task_to_doc _)
      (fun d => noVE_bind ih (fun ds => noVE_ok _))

/-- The task loop never raises a ValueError. -/
lemma noVE_loadTasksLoop (c : Client) : ∀ ps : List JVal, noVE (loadTasksLoop c ps).2 := by
  intro ps
  induction ps with
  | nil => exact noVE_ok _
  | cons p rest ih =>
    intro e he
    unfold loadTasksLoop at he
    split at he
    case h_1 e0 heq =>
      dsimp only at he
      exact (Except.error.inj he) ▸ noVE_pyGetItem p "gid" e0 heq
    case h_2 gid heq =>
      dsimp only at he
      split at he
      · exact Except.noConfusion he
      · rename_i e1 heq1
        exact (Except.error.inj he) ▸ ih e1 heq1

/-- C10: for every loader produced by a successful construction, load() never
fails with any ValueError, whatever the client returns; in particular the
defensive invalid-id_type branch on lines 63-64 is unreachable. -/
theorem C10_no_invalid_idtype_error (c : Client) (id idt : String)
    (l : AsanaLoader) (h : (AsanaLoader.init c id idt).2 = .ok l) (s : String) :
    (AsanaLoader.load l).2 ≠ .error (.valueError s) := by
  unfold AsanaLoader.init at h
  dsimp only at h
  by_cases hmem : idt ∈ ["project", "workspace"]
  case neg =>
    rw [if_pos hmem] at h
    exact Except.noConfusion h
  case pos =>
    rw [if_neg (not_not_intro hmem)] at h
    have hl := Except.ok.inj h
    have hor : idt = "project" ∨ idt = "workspace" := by
      rcases List.mem_cons.mp hmem with h1 | h2
      · exact Or.inl h1
      · rcases List.mem_cons.mp h2 with h3 | h4
        · exact Or.inr h3
        · exact absurd h4 (List.not_mem_nil idt)
    have hnv : noVE (AsanaLoader.load l).2 := by
      subst hl
      rcases hor with hp | hw
      · subst hp
        unfold AsanaLoader.load
        dsimp only
        exact noVE_bind (noVE_loadTasksLoop _ _) noVE_mapTasks
      · subst hw
        unfold AsanaLoader.load
        dsimp only
        exact noVE_bind (noVE_loadTasksLoop _ _) noVE_mapTasks
    intro hbad
    have := hnv (.valueError s) hbad
    exact Bool.noConfusion this

/-- C10 witness: a concretely constructed project loader over the sample
client never returns the invalid-id_type ValueError. -/
theorem C10_no_invalid_idtype_error_witness :
    (AsanaLoader.load ⟨cW, "p9", "project"⟩).2 ≠
      .error (.valueError "id_type must be either \x27workspace\x27 or \x27project\x27") :=
  C10_no_invalid_idtype_error cW "p9" "project" ⟨cW, "p9", "project"⟩ rfl
    "id_type must be either \x27workspace\x27 or \x27project\x27"

/-- C4: construction issues no API call, succeeds exactly on the two
recognized id_type values, and fails with the ValueError of line 24 on any
other value. -/
theorem C4_init_validates (c : Client) (id idt : String) :
    (AsanaLoader.init c id idt).1 = [] ∧
    (AsanaLoader.init c id idt).2 =
      (if idt = "project" ∨ idt = "workspace" then .ok ⟨c, id, idt⟩
       else .error (.valueError init_err_msg)) := by
  refine ⟨rfl, ?_⟩
  unfold AsanaLoader.init
  dsimp only
  by_cases hor : idt = "project" ∨ idt = "workspace"
  · rw [if_pos hor, if_neg]
    intro hnot
    rcases hor with h1 | h2
    · exact hnot (by rw [h1]; exact List.mem_cons_self _ _)
    · exact hnot (by rw [h2]; exact List.mem_cons_of_mem _ (List.mem_cons_self _ _))
  · rw [if_neg hor, if_pos]
    intro hmem
    rcases List.mem_cons.mp hmem with h1 | h2
    · exact hor (Or.inl h1)
    · rcases List.mem_cons.mp h2 with h3 | h4
      · exact hor (Or.inr h3)
      · exact absurd h4 (List.not_mem_nil idt)

/-! C9: convenience construction from credentials. -/

/-- A sample environment holding an Asana token. -/
def envC : String → Option String :=
  fun k => if k = "ASANA_ACCESS_TOKEN" then some "envtok" else none

/-- A sample client factory whose project lookup reveals the bound token. -/
def mkClientTok : String → Client :=
  fun tok => ⟨fun _ => [], fun _ => .str tok, fun _ => []⟩

/-- C9 counterexample: the claim says the explicitly supplied access-token
value is used when given; but a supplied empty-string token is falsy, so the
Python or-expression on line 47 silently falls back to the environment
variable, and the built client is bound to the environment token instead of
the supplied one. -/
theorem C9_counterexample :
    (from_credentials envC mkClientTok "1" "project" (some "")).map
        (fun l => l.client.projects_find_by_id "x") = .ok (.str "envtok") ∧
    JVal.str "envtok" ≠ JVal.str "" :=
  ⟨rfl, fun hc => absurd (JVal.str.inj hc) (by decide)⟩

/-- C9 amended: the supplied access token is used when it is given and
non-empty; when it is omitted or empty, the token is read from the
ASANA_ACCESS_TOKEN environment variable, failing with a configuration error
when the variable is unset; the client bound to the chosen token is then
handed to the direct constructor. -/
theorem C9_from_credentials_amended (env : String → Option String)
    (mkClient : String → Client) (id idt : String) :
    (∀ t : String, t ≠ "" →
      from_credentials env mkClient id idt (some t) =
        (AsanaLoader.init (mkClient t) id idt).2) ∧
    (∀ tok : Option String, tok = none ∨ tok = some "" →
      from_credentials env mkClient id idt tok =
        (match env "ASANA_ACCESS_TOKEN" with
         | some t => (AsanaLoader.init (mkClient t) id idt).2
         | none => .error (.valueError ("Did not find access_token, " ++
             "please add an environment variable ASANA_ACCESS_TOKEN")))) := by
  constructor
  · intro t ht
    unfold from_credentials
    dsimp only
    rw [if_pos (bne_iff_ne.mpr ht)]
    rfl
  · intro tok htok
    have henvcase :
        Except.bind (get_from_env env "access_token" "ASANA_ACCESS_TOKEN")
          (fun t => (AsanaLoader.init (mkClient t) id idt).2) =
        (match env "ASANA_ACCESS_TOKEN" with
         | some t => (AsanaLoader.init (mkClient t) id idt).2
         | none => .error (.valueError ("Did not find access_token, " ++
             "please add an environment variable ASANA_ACCESS_TOKEN"))) := by
      unfold get_from_env
      cases env "ASANA_ACCESS_TOKEN" with
      | none => rfl
      | some t => rfl
    rcases htok with hnone | hempty
    · subst hnone
      unfold from_credentials
      exact henvcase
    · subst hempty
      unfold from_credentials
      dsimp only
      rw [if_neg (by decide)]
      exact henvcase

/-- C9 witness: with the sample environment and factory, a non-empty supplied
token is used directly, and an omitted token falls back to the environment. -/
theorem C9_from_credentials_amended_witness :
    from_credentials envC mkClientTok "1" "project" (some "tok") =
      (AsanaLoader.init (mkClientTok "tok") "1" "project").2 ∧
    from_credentials envC mkClientTok "1" "project" none =
      (AsanaLoader.init (mkClientTok "envtok") "1" "project").2 := by
  have h := C9_from_credentials_amended envC mkClientTok "1" "project"
  exact ⟨h.1 "tok" (by decide), (h.2 none (Or.inl rfl)).trans rfl⟩
